import Mathlib

/-!
Shallow embedding of the streaming-connection-manager parts of the
`exchange_API_collection` repository, together with proofs settling the
frozen claims about its specification.

Embedded sources:
* `src/bybit/bybit_websocket_stream.py` — `V5BybitWebSocketManager`
  (orderbook delta normalizer, callback registry, unsubscribe);
* `src/binance_apis/Binance_ws.py` — `BinanceWS` (resubscribe batching,
  control-message throttle, reconnect loop, dispatch, unsubscribe) and
  `BinanceUserDataWS` (subscribe/unsubscribe stubs);
* `src/hyperliquid/hyperliquid_websocket_manager.py` —
  `HyperliquidWebsocketManager` (subscribe/unsubscribe registry,
  message-to-identifier routing, read loop control flow).

Conventions: prices and sizes are modelled as rationals (the Python code
holds them as numbers compared with `float(x) == 0` and `==` on the
price key); callbacks/handlers are modelled by opaque numeric identifiers;
Python dicts become functions `String → _` updated with `Function.update`;
a Python exception escaping a method is modelled by an `Except`/`Bool`
error flag in the return value.
-/

namespace ExchangeWS

/-! ## Bybit orderbook snapshot normalizer
(`V5BybitWebSocketManager._process_delta_orderbook`,
`_initialise_local_data`, `_find_index`, `_process_normal_message`).

A price level is a `[price, size]` pair (the live feed always ships
two-element entries, so the Python guard `len(entry) > 1` is always true
in the model). -/

/-- A `[price, size]` price-level entry. -/
abbrev Level : Type := ℚ × ℚ

/-- Embeds `V5BybitWebSocketManager._find_index(array, item, 0)`: index of
the first entry whose price (field 0) equals the given price, else `None`. -/
def find_index (side : List Level) (price : ℚ) : Option Nat :=
  side.findIdx? (fun e => e.1 == price)

/-- One iteration of the per-entry update loop of
`_process_delta_orderbook`: a zero-size entry deletes the matching price
level (if present); an unseen price is appended; a seen price is replaced
in place. -/
def apply_entry (side : List Level) (e : Level) : List Level :=
  if e.2 == 0 then
    match find_index side e.1 with
    | some i => side.eraseIdx i
    | none => side
  else if (side.map Prod.fst).contains e.1 then
    match find_index side e.1 with
    | some i => side.set i e
    | none => side
  else
    side ++ [e]

/-- The entry loop `for entry in entries` of `_process_delta_orderbook`,
folded over one book side. -/
def apply_side (side : List Level) (entries : List Level) : List Level :=
  entries.foldl apply_entry side

/-- The dict stored in `self.data[topic]` once a snapshot frame has been
applied: bid levels `b`, ask levels `a`, and the optional sequence fields
`u` and `seq`. -/
structure BookData where
  b : List Level
  a : List Level
  u : Option ℤ
  seq : Option ℤ
deriving DecidableEq

/-- The per-topic value held in `self.data`.  `_initialise_local_data`
stores the bare Python list `[]` (constructor `initList`); a snapshot frame
replaces it with the book dict (constructor `book`). -/
inductive TopicState : Type where
  | initList : TopicState
  | book : BookData → TopicState
deriving DecidableEq

/-- Payload of an orderbook delta frame: `message["data"]` with both the
`"b"` and `"a"` keys present (the Python merge path requires both) and the
optional `"u"`/`"seq"` sequence fields. -/
structure DeltaData where
  b : List Level
  a : List Level
  u : Option ℤ
  seq : Option ℤ
deriving DecidableEq

/-- An orderbook data frame, classified by its `"type"` field exactly as
`_process_delta_orderbook` does: a frame whose type contains `"snapshot"`
carries a full book, any other frame with `"b"`/`"a"` data is a delta. -/
inductive OBMessage : Type where
  | snapshot : BookData → OBMessage
  | delta : DeltaData → OBMessage

/-- Embeds `V5BybitWebSocketManager._process_delta_orderbook` acting on the
stored state of one topic.  Returns the state left in `self.data[topic]`
and an error flag that is `true` when the Python method raises.

Control flow mirrored from the source:
* `_initialise_local_data` first stores `[]` when the topic is absent;
* a snapshot frame replaces the stored state wholesale;
* a delta frame on the bare-list state raises `TypeError` at
  `self.data[topic]["u"] = …` (or the `seq` assignment) when the delta
  carries a sequence field — the list cannot be indexed by a string — and
  otherwise merges nothing because `"b" in []` and `"a" in []` are false;
* a delta frame on a book dict overwrites `u`/`seq` when present and folds
  both sides through the entry loop. -/
def process_delta_orderbook (stored : Option TopicState) (msg : OBMessage) :
    TopicState × Bool :=
  let st := stored.getD TopicState.initList
  match msg with
  | OBMessage.snapshot d => (TopicState.book d, false)
  | OBMessage.delta d =>
    match st with
    | TopicState.initList =>
      if d.u.isSome || d.seq.isSome then (TopicState.initList, true)
      else (TopicState.initList, false)
    | TopicState.book bd =>
      let u2 := match d.u with | some v => some v | none => bd.u
      let s2 := match d.seq with | some v => some v | none => bd.seq
      (TopicState.book ⟨apply_side bd.b d.b, apply_side bd.a d.a, u2, s2⟩, false)

/-- The bid side held by a topic state (`[]` for the bare-list state). -/
def TopicState.bside : TopicState → List Level
  | TopicState.initList => []
  | TopicState.book d => d.b

/-- The ask side held by a topic state (`[]` for the bare-list state). -/
def TopicState.aside : TopicState → List Level
  | TopicState.initList => []
  | TopicState.book d => d.a

/-- Effect of one orderbook data frame on the whole `self.data` dict, as
performed by `_process_normal_message` via `_process_delta_orderbook`:
the topic entry is replaced by the new state (mutation in place), and the
error flag reports whether the merge raised. -/
def on_orderbook_message (data : String → Option TopicState) (topic : String)
    (msg : OBMessage) : (String → Option TopicState) × Bool :=
  let r := process_delta_orderbook (data topic) msg
  (Function.update data topic (some r.1), r.2)

/-- Whether `_process_normal_message` reaches the handler call for an
orderbook frame: the merge must not raise (a raised error propagates to
`_on_message`, which catches and logs it before any handler runs), and a
callback must be registered for the topic. -/
def orderbook_handler_invoked (stored : Option TopicState) (msg : OBMessage)
    (registered : Bool) : Bool :=
  !(process_delta_orderbook stored msg).2 && registered

/-! ## Binance resubscribe replay (`BinanceWS._resubscribe_all`, called from
`connect` after every successful (re)connection when `self._subscriptions`
is non-empty). -/

/-- The Python slicing loop `for i in range(0, len(subs), batch):
chunk = subs[i:i+batch]`: splits a list into consecutive chunks of `n`
elements (the final chunk may be shorter).  Written so that each chunk is
non-empty and the recursion consumes at least one element. -/
def chunksOf {α : Type} (n : Nat) : List α → List (List α)
  | [] => []
  | x :: xs => (x :: xs.take (n - 1)) :: chunksOf n (xs.drop (n - 1))
termination_by l => l.length
decreasing_by
  simp only [List.length_drop, List.length_cons]
  omega

/-- One outbound action of the replay loop: either a subscribe control
frame carrying a batch of topics, or the `asyncio.sleep(0.2)` pacing
delay issued after each batch. -/
inductive CtrlAction : Type where
  | send : List String → CtrlAction
  | sleep : CtrlAction
deriving DecidableEq

/-- Whether an action is a subscribe control frame. -/
def CtrlAction.isSend : CtrlAction → Bool
  | CtrlAction.send _ => true
  | CtrlAction.sleep => false

/-- The body of `_resubscribe_all`'s loop: for each chunk, send one
subscribe control frame, then sleep. -/
def actionsOfFrames : List (List String) → List CtrlAction
  | [] => []
  | c :: cs => CtrlAction.send c :: CtrlAction.sleep :: actionsOfFrames cs

/-- Embeds `BinanceWS._resubscribe_all`: `subs = sorted(self._subscriptions)`
(the registry is a Python `set`, here a `Finset String`), chunked into
batches of at most 200 topics, one subscribe control frame per batch. -/
def resubscribe_frames (s : Finset String) : List (List String) :=
  chunksOf 200 (s.sort (· ≤ ·))

/-- The full action trace of `_resubscribe_all`: each batch's subscribe
frame followed by the 0.2 s pacing sleep. -/
def resubscribe_actions (s : Finset String) : List CtrlAction :=
  actionsOfFrames (resubscribe_frames s)

/-! ## Binance reconnect loop (`BinanceWS._reconnect`) and the Hyperliquid
connect loop (`HyperliquidWebsocketManager.connect`), as control-flow
state machines.  The stop flag is `self._running` (cleared by
`disconnect()`) for Binance and `self.stop_event` (set by `stop()`) for
Hyperliquid. -/

/-- Control-flow positions of `BinanceWS._reconnect` (inside the
reconnect lock): the guard `if not self._running: return` at entry, the
`while self._running` loop condition, the `await self.connect()` attempt,
and the backoff `await asyncio.sleep(delay)` after a failed attempt. -/
inductive RPhase : Type where
  | entry : RPhase
  | loopCheck : RPhase
  | connectAttempt : RPhase
  | backoff : RPhase
  | connected : RPhase
  | exited : RPhase
deriving DecidableEq

/-- One control-flow step of `_reconnect`.  `running` is the value of
`self._running` observed at this step; `connOk` tells whether the
`connect()` attempt succeeds. -/
def reconnect_step (running connOk : Bool) : RPhase → RPhase
  | RPhase.entry => if running then RPhase.loopCheck else RPhase.exited
  | RPhase.loopCheck => if running then RPhase.connectAttempt else RPhase.exited
  | RPhase.connectAttempt => if connOk then RPhase.connected else RPhase.backoff
  | RPhase.backoff => RPhase.loopCheck
  | RPhase.connected => RPhase.connected
  | RPhase.exited => RPhase.exited

/-- The reconnect loop run for `n` steps against arbitrary schedules of
the stop flag and of connect outcomes. -/
def reconnect_run (running connOk : Nat → Bool) (p : RPhase) : Nat → RPhase
  | 0 => p
  | n + 1 => reconnect_step (running n) (connOk n) (reconnect_run running connOk p n)

/-- Control-flow positions of the Hyperliquid `connect` loop: the
`while not self.stop_event.is_set()` condition, the connected session
(opened by `websockets.connect`), and the post-session
`if not stop: sleep(5)` gate that leads back to the loop condition. -/
inductive HLPhase : Type where
  | loopTop : HLPhase
  | session : HLPhase
  | sleepGate : HLPhase
  | stopped : HLPhase
deriving DecidableEq

/-- One control-flow step of the Hyperliquid connect loop: a connection is
opened only by the `loopTop → session` transition, which requires the stop
event to be unset; after a session ends, the sleep gate returns to the
loop condition, never directly to a new session. -/
def hl_connect_step (stop : Bool) : HLPhase → HLPhase
  | HLPhase.loopTop => if stop then HLPhase.stopped else HLPhase.session
  | HLPhase.session => HLPhase.sleepGate
  | HLPhase.sleepGate => HLPhase.loopTop
  | HLPhase.stopped => HLPhase.stopped

/-! ## Binance inbound dispatch (`BinanceWS._dispatch`) and the
Hyperliquid inbound routing (`on_message`, `ws_msg_to_identifier`). -/

/-- Shape of a decoded Binance frame as `_dispatch` inspects it: presence
of the `"result"` and `"id"` keys (control acknowledgement), and the
combined-stream `"stream"`/`"data"` pair. -/
structure BNMsg where
  hasResult : Bool
  hasId : Bool
  stream : Option String
  hasData : Bool

/-- Outcome of `BinanceWS._dispatch` on one frame. -/
inductive BNOutcome : Type where
  | ack : BNOutcome
  | handled : String → BNOutcome
  | defaulted : BNOutcome
  | dropped : BNOutcome
deriving DecidableEq

/-- Embeds `BinanceWS._dispatch`: a control acknowledgement is logged and
ignored; a combined-stream frame goes to its per-stream handler when one
is registered, else to the default handler when set, else it is silently
dropped; any other frame goes to the default handler or is dropped.  The
method contains no raise path, modelled by the `Except` codomain never
producing `.error`. -/
def bn_dispatch (handlers : List String) (hasDefault : Bool) (m : BNMsg) :
    Except String BNOutcome :=
  if m.hasResult && m.hasId then Except.ok BNOutcome.ack
  else
    match m.stream, m.hasData with
    | some s, true =>
      if handlers.contains s then Except.ok (BNOutcome.handled s)
      else if hasDefault then Except.ok BNOutcome.defaulted
      else Except.ok BNOutcome.dropped
    | _, _ =>
      if hasDefault then Except.ok BNOutcome.defaulted
      else Except.ok BNOutcome.dropped

/-- A decoded Hyperliquid frame, classified by its `"channel"` field with
the payload fields that `ws_msg_to_identifier` reads.  `other` stands for
any channel value not in the routing table. -/
inductive HLMsg : Type where
  | pong : HLMsg
  | allMids : HLMsg
  | l2Book : String → HLMsg
  | trades : List String → HLMsg
  | user : HLMsg
  | userFills : String → HLMsg
  | candle : String → String → HLMsg
  | orderUpdates : HLMsg
  | userFundings : String → HLMsg
  | userNonFundingLedgerUpdates : String → HLMsg
  | webData2 : String → HLMsg
  | activeAssetCtx : String → HLMsg
  | subscriptionResponse : String → String → HLMsg
  | other : Option String → HLMsg

/-- Embeds `ws_msg_to_identifier`: maps a frame to its routing identifier,
or raises `ValueError` (the `.error` branch) for an empty trades payload
or an unknown channel. -/
def ws_msg_to_identifier : HLMsg → Except String String
  | HLMsg.pong => Except.ok "pong"
  | HLMsg.allMids => Except.ok "allMids"
  | HLMsg.l2Book coin => Except.ok ("l2Book:" ++ coin.toLower)
  | HLMsg.trades [] => Except.error "Trades message is empty"
  | HLMsg.trades (c :: _) => Except.ok ("trades:" ++ c.toLower)
  | HLMsg.user => Except.ok "userEvents"
  | HLMsg.userFills u => Except.ok ("userFills:" ++ u.toLower)
  | HLMsg.candle s i => Except.ok ("candle:" ++ s.toLower ++ "," ++ i)
  | HLMsg.orderUpdates => Except.ok "orderUpdates"
  | HLMsg.userFundings u => Except.ok ("userFundings:" ++ u.toLower)
  | HLMsg.userNonFundingLedgerUpdates u =>
      Except.ok ("userNonFundingLedgerUpdates:" ++ u.toLower)
  | HLMsg.webData2 u => Except.ok ("webData2:" ++ u.toLower)
  | HLMsg.activeAssetCtx coin => Except.ok ("activeAssetCtx:" ++ coin.toLower)
  | HLMsg.subscriptionResponse t c =>
      Except.ok ("subscriptionResponse:" ++ t ++ ":" ++ c)
  | HLMsg.other _ => Except.error "Unknown WebSocket message type"

/-- Whether a frame is routable by `ws_msg_to_identifier` without raising. -/
def HLMsg.routable : HLMsg → Bool
  | HLMsg.trades [] => false
  | HLMsg.other _ => false
  | _ => true

/-- Embeds `HyperliquidWebsocketManager.on_message` (after JSON decoding):
resolves the identifier — propagating the `ValueError` of an unroutable
frame — swallows pongs, and otherwise returns the callbacks of the active
subscriptions registered under the identifier (an empty list when none is
registered: `active_subscriptions` is a `defaultdict(list)`).  Callbacks
are abstracted to numeric identifiers. -/
def hl_on_message (subs : String → List Nat) (m : HLMsg) :
    Except String (List Nat) :=
  match ws_msg_to_identifier m with
  | Except.error e => Except.error e
  | Except.ok ident =>
    if ident == "pong" then Except.ok []
    else Except.ok (subs ident)

/-- Whether processing the frame terminates the Hyperliquid read loop.
In `connect`, `await self.on_message(message)` sits inside the
`async for` whose surrounding `try/except` (and `finally` cleanup) is
OUTSIDE the iteration: an exception escaping `on_message` aborts the
`async for`, runs the cleanup, and ends the session — the connection is
closed and re-established after the 5-second delay. -/
def hl_read_loop_terminates (subs : String → List Nat) (m : HLMsg) : Bool :=
  match hl_on_message subs m with
  | Except.error _ => true
  | Except.ok _ => false

/-! ## Subscription registries: Bybit `_set_callback`, Hyperliquid
`subscribe`/`unsubscribe`, Binance `unsubscribe`, Bybit `unsubscribe`,
and the `BinanceUserDataWS` stubs. -/

/-- Embeds `V5BybitWebSocketManager._set_callback`: plain dict assignment
`self.callback_directory[topic] = callback_function` (callbacks abstracted
to numeric identifiers). -/
def set_callback (dir : String → Option Nat) (topic : String) (cb : Nat) :
    String → Option Nat :=
  Function.update dir topic (some cb)

/-- An entry of Hyperliquid's `active_subscriptions[identifier]` list: the
`ActiveSubscription(callback, subscription_id)` named tuple, callback
abstracted to a numeric identifier. -/
abbrev ActiveSub : Type := Nat × Nat

/-- Embeds `HyperliquidWebsocketManager.subscribe` acting on the registry
(with the identifier already computed by `subscription_to_identifier`):
a second subscription to `userEvents`/`orderUpdates` raises
`NotImplementedError`; otherwise the new `(callback, subscription_id)`
entry is APPENDED to the identifier's list and the subscribe control
frame is sent. -/
def hl_subscribe (subs : String → List ActiveSub) (ident : String)
    (cb sid : Nat) : Except String (String → List ActiveSub) :=
  if (ident == "userEvents" || ident == "orderUpdates") && !(subs ident).isEmpty then
    Except.error ("Cannot subscribe to " ++ ident ++ " multiple times")
  else
    Except.ok (Function.update subs ident (subs ident ++ [(cb, sid)]))

/-- Two consecutive `hl_subscribe` calls with the same identifier on an
initially empty registry, returning the resulting entry list for that
identifier (empty when either call raises). -/
def hl_sub_twice (ident : String) : List ActiveSub :=
  match hl_subscribe (fun _ => []) ident 1 10 with
  | Except.error _ => []
  | Except.ok s1 =>
    match hl_subscribe s1 ident 2 11 with
    | Except.error _ => []
    | Except.ok s2 => s2 ident

/-- Embeds `HyperliquidWebsocketManager.unsubscribe` (with the identifier
already computed): filter out the entries with the given
`subscription_id`, store the filtered list back, send the unsubscribe
control frame exactly when the remaining list is empty, and return whether
anything was removed.  Result: (new registry, frame sent?, return value). -/
def hl_unsubscribe (subs : String → List ActiveSub) (ident : String)
    (sid : Nat) : (String → List ActiveSub) × Bool × Bool :=
  let cur := subs ident
  let news := cur.filter (fun s => s.2 != sid)
  (Function.update subs ident news, news.isEmpty, cur.length != news.length)

/-- An outbound Binance control frame
`{"method": …, "params": […], "id": …}`. -/
structure BnFrame where
  method : String
  params : List String
  id : Nat
deriving DecidableEq

/-- Embeds `BinanceWS.unsubscribe` acting on the registry (connection
assumed established by `_ensure_connected`): the id counter is bumped, an
UNSUBSCRIBE control frame with the given params is sent over the transport
unconditionally, and each param is discarded from `self._subscriptions`
(a no-op for absent topics) and popped from `self._stream_handlers`.
Result: (subscriptions, stream handlers, id counter, frames sent). -/
def bn_unsubscribe (subs : List String) (handlers : String → Option Nat)
    (idc : Nat) (params : List String) :
    List String × (String → Option Nat) × Nat × List BnFrame :=
  let idc2 := idc + 1
  (subs.filter (fun s => !params.contains s),
   fun s => if params.contains s then none else handlers s,
   idc2,
   [⟨"UNSUBSCRIBE", params, idc2⟩])

/-- The lookup loop of `V5BybitWebSocketManager.unsubscribe`: the first
`req_id` whose stored subscribe message has an `args` list intersecting
the requested args (`any(arg in message_args for arg in args)`). -/
def bybit_find_req (subscriptions : List (String × List String))
    (args : List String) : Option String :=
  (subscriptions.find? (fun rm => args.any (fun a => rm.2.contains a))).map Prod.fst

/-- Embeds `V5BybitWebSocketManager.unsubscribe` with the prepared
unsubscription args (`_prepare_subscription_args` string formatting is
applied by the caller; an empty args list is its failure value).  When no
stored subscription matches, the call returns `False` locally with no
frame sent and no state change; likewise when the socket is not connected.
Otherwise the unsubscribe frame is sent, the matched subscription entry is
removed, and each arg's callback is popped.
Result: (subscriptions, callback directory, frames sent, return value). -/
def bybit_unsubscribe (connected : Bool)
    (subscriptions : List (String × List String))
    (cbdir : String → Option Nat) (args : List String) :
    List (String × List String) × (String → Option Nat) × List (List String) × Bool :=
  if args.isEmpty then (subscriptions, cbdir, [], false)
  else
    match bybit_find_req subscriptions args with
    | none => (subscriptions, cbdir, [], false)
    | some rid =>
      if connected then
        (subscriptions.filter (fun rm => rm.1 != rid),
         fun t => if args.contains t then none else cbdir t,
         [args], true)
      else (subscriptions, cbdir, [], false)

/-- Embeds `BinanceUserDataWS.subscribe`: unconditionally raises
`NotImplementedError` before touching any state, so the caller's
subscription set, handlers and connection are left as they were. -/
def bud_subscribe (subs : List String) (params : List String) :
    Except String (List String × List BnFrame) :=
  Except.error "UserData stream via listenKey does not support SUBSCRIBE."

/-- Embeds `BinanceUserDataWS.unsubscribe`: unconditionally raises
`NotImplementedError` before touching any state. -/
def bud_unsubscribe (subs : List String) (params : List String) :
    Except String (List String × List BnFrame) :=
  Except.error "UserData stream via listenKey does not support UNSUBSCRIBE."

/-- One call of `BinanceWS._throttle_control_msg` under an idealized clock:
sends are instantaneous and `asyncio.sleep(d)` advances the clock by `d`.
State is (current time, `self._last_ctrl_ts`).  Mirrors the source line by
line: prune entries older than the 1-second window with the pre-sleep
`now`, sleep `1.0 - (now - self._last_ctrl_ts[0])` when the pruned window
already holds `limit` entries, then append the post-sleep `time.time()`.
(The pruning predicate keeps `now - t ≤ 1.0`, so the sleep duration is
never negative.) -/
def throttle_step (limit : Nat) (st : ℚ × List ℚ) : ℚ × List ℚ :=
  let now := st.1
  let ts := st.2.filter (fun t => now - t ≤ 1)
  let now2 := if limit ≤ ts.length then now + (1 - (now - ts.headI)) else now
  (now2, ts ++ [now2])

/-- `n` control-message sends issued back-to-back starting at time 0, with
`limit_per_sec = 5` (the public `stream.binance.com` endpoint class). -/
def throttle_run : Nat → ℚ × List ℚ
  | 0 => (0, [])
  | n + 1 => throttle_step 5 (throttle_run n)

/-- The instants at which 12 back-to-back control sends actually go out
(no timestamp is pruned within this run, so the final window list records
every send). -/
def bn_send_times : List ℚ := (throttle_run 12).2

/-- Sends within the trailing 1-second window ending at instant `x`
(half-open: strictly after `x - 1`, up to and including `x`). -/
def sends_in_window (times : List ℚ) (x : ℚ) : Nat :=
  (times.filter (fun t => decide (x - 1 < t) && decide (t ≤ x))).length

end ExchangeWS

namespace ExchangeWS

/-- Concatenating the chunks restores the original list. -/
theorem join_chunksOf {α : Type} (n : Nat) (l : List α) :
    (chunksOf n l).flatten = l := by
  have h : ∀ (k : Nat) (l : List α), l.length ≤ k → (chunksOf n l).flatten = l := by
    intro k
    induction k with
    | zero =>
      intro l hl
      have hnil : l = [] := List.length_eq_zero.mp (Nat.le_zero.mp hl)
      subst hnil
      simp [chunksOf]
    | succ k ih =>
      intro l hl
      cases l with
      | nil => simp [chunksOf]
      | cons x xs =>
        have hk : (xs.drop (n - 1)).length ≤ k := by
          simp only [List.length_drop]
          simp only [List.length_cons] at hl
          omega
        rw [chunksOf]
        simp only [List.flatten_cons, List.cons_append]
        rw [ih (xs.drop (n - 1)) hk]
        rw [List.take_append_drop]
  exact h l.length l le_rfl

/-- Every chunk produced with batch size 200 holds at most 200 topics. -/
theorem chunksOf_length_le (l : List String) :
    (chunksOf 200 l).all (fun c => c.length ≤ 200) = true := by
  have h : ∀ (k : Nat) (l : List String), l.length ≤ k →
      (chunksOf 200 l).all (fun c => c.length ≤ 200) = true := by
    intro k
    induction k with
    | zero =>
      intro l hl
      have hnil : l = [] := List.length_eq_zero.mp (Nat.le_zero.mp hl)
      subst hnil
      simp [chunksOf]
    | succ k ih =>
      intro l hl
      cases l with
      | nil => simp [chunksOf]
      | cons x xs =>
        have hk : (xs.drop (200 - 1)).length ≤ k := by
          simp only [List.length_drop]
          simp only [List.length_cons] at hl
          omega
        rw [chunksOf]
        simp only [List.all_cons, Bool.and_eq_true]
        refine ⟨?_, ih (xs.drop (200 - 1)) hk⟩
        simp only [decide_eq_true_eq, List.length_cons, List.length_take]
        omega
  exact h l.length l le_rfl

/-- No two subscribe frames are adjacent in the replay trace: a pacing
sleep separates consecutive batches. -/
theorem actionsOfFrames_paced (fs : List (List String)) :
    List.Chain' (fun a b => a.isSend = false ∨ b.isSend = false)
      (actionsOfFrames fs) := by
  induction fs with
  | nil => simp [actionsOfFrames]
  | cons c cs ih =>
    rw [actionsOfFrames]
    rw [List.chain'_cons]
    refine ⟨Or.inr rfl, ?_⟩
    rw [List.chain'_cons']
    refine ⟨?_, ih⟩
    intro y _
    exact Or.inl rfl

/-- C5: the stop flag guards every entry into a connect attempt.  A
connect attempt is only ever reached from a step that observed the flag
as running; the backoff sleep leads back to the loop-condition check and
never directly into a connect attempt; and in any run of the reconnect
loop in which the stop flag is false from step `k` on, no later step is at
a connect attempt — a stopped manager is never resurrected.  The
Hyperliquid connect loop opens a session only from its loop condition with
the stop event unset. -/
theorem c5_stop_flag_guards_reconnect :
    (∀ (r ok : Bool) (p : RPhase),
      reconnect_step r ok p = RPhase.connectAttempt → r = true)
    ∧ (∀ (r ok : Bool), reconnect_step r ok RPhase.backoff = RPhase.loopCheck)
    ∧ (∀ (running connOk : Nat → Bool) (p : RPhase) (k n : Nat),
        (∀ m, k ≤ m → running m = false) → k < n →
        reconnect_run running connOk p n ≠ RPhase.connectAttempt)
    ∧ (∀ (stop : Bool) (p : HLPhase),
        hl_connect_step stop p = HLPhase.session → stop = false) := by
  have hstep : ∀ (ok : Bool) (p : RPhase),
      reconnect_step false ok p ≠ RPhase.connectAttempt := by
    intro ok p
    cases p <;> cases ok <;> simp [reconnect_step]
  refine ⟨?_, ?_, ?_, ?_⟩
  · intro r ok p h
    cases r with
    | true => rfl
    | false => exact absurd h (hstep ok p)
  · intro r ok
    rfl
  · intro running connOk p k n hstop hkn
    obtain ⟨m, rfl⟩ : ∃ m, n = m + 1 := by
      cases n with
      | zero => omega
      | succ m => exact ⟨m, rfl⟩
    rw [reconnect_run]
    rw [hstop m (by omega)]
    exact hstep _ _
  · intro stop p h
    cases stop with
    | false => rfl
    | true => cases p <;> simp [hl_connect_step] at h

/-- Closed instance of `c5_stop_flag_guards_reconnect`: with the stop flag
false from the start, one step from the entry phase is not a connect
attempt, and a backoff step returns to the loop check. -/
theorem c5_stop_flag_witness :
    reconnect_run (fun _ => false) (fun _ => true) RPhase.entry 1 ≠ RPhase.connectAttempt
    ∧ reconnect_step false true RPhase.backoff = RPhase.loopCheck
    ∧ ((true : Bool) = true) := by
  refine ⟨?_, ?_, ?_⟩
  · exact c5_stop_flag_guards_reconnect.2.2.1 (fun _ => false) (fun _ => true)
      RPhase.entry 0 1 (fun m _ => rfl) (by decide)
  · exact c5_stop_flag_guards_reconnect.2.1 false true
  · exact c5_stop_flag_guards_reconnect.1 true true RPhase.loopCheck (by rfl)

/-- C6 counterexample: a Hyperliquid frame whose channel is not in the
routing table makes `ws_msg_to_identifier` raise `ValueError`, and the
exception escapes `on_message` into `connect`, where it aborts the
`async for` read loop: the frame is not merely logged and dropped — the
session is torn down (and later re-established), contradicting the claim
that an unroutable frame never terminates the read loop. -/
theorem c6_counterexample :
    hl_read_loop_terminates (fun _ => []) (HLMsg.other (some "bogus")) = true
    ∧ ws_msg_to_identifier (HLMsg.other (some "bogus"))
      = Except.error "Unknown WebSocket message type" :=
  ⟨rfl, rfl⟩

/-- C6 amended: the Binance dispatcher (`_dispatch`) never raises on any
frame — control acks, routable frames, and unroutable frames are all
consumed without error — and the Hyperliquid `on_message` consumes every
frame on a recognized channel without error (invoking zero callbacks when
no subscription is registered), but a frame with an unrecognized channel
or an empty trades payload raises `ValueError`, which terminates the read
loop and forces a session teardown and reconnect rather than a drop. -/
theorem c6_unroutable_frames (handlers : List String) (hasDefault : Bool)
    (m : BNMsg) (subs : String → List Nat) (m2 : HLMsg) :
    (∃ o, bn_dispatch handlers hasDefault m = Except.ok o)
    ∧ (HLMsg.routable m2 = true → ∃ r, hl_on_message subs m2 = Except.ok r)
    ∧ (HLMsg.routable m2 = false → hl_read_loop_terminates subs m2 = true) := by
  refine ⟨?_, ?_, ?_⟩
  · rw [bn_dispatch]
    split
    · exact ⟨_, rfl⟩
    · split
      · split
        · exact ⟨_, rfl⟩
        · split
          · exact ⟨_, rfl⟩
          · exact ⟨_, rfl⟩
      · split
        · exact ⟨_, rfl⟩
        · exact ⟨_, rfl⟩
  · intro hr
    cases m2
    case trades l =>
      cases l with
      | nil => simp [HLMsg.routable] at hr
      | cons c cs =>
        simp only [hl_on_message, ws_msg_to_identifier]
        split
        · exact ⟨_, rfl⟩
        · exact ⟨_, rfl⟩
    case other ch => simp [HLMsg.routable] at hr
    all_goals
      simp only [hl_on_message, ws_msg_to_identifier]
    all_goals
      split
      · exact ⟨_, rfl⟩
      · exact ⟨_, rfl⟩
  · intro hr
    cases m2 <;> simp [HLMsg.routable] at hr
    case trades l =>
      cases l with
      | nil => rfl
      | cons c cs => simp [HLMsg.routable] at hr
    case other ch => rfl

/-- Closed instance of `c6_unroutable_frames`: a routable frame with no
registered subscription is consumed without error, and an empty trades
payload terminates the read loop. -/
theorem c6_unroutable_witness :
    (∃ r, hl_on_message (fun _ => []) HLMsg.allMids = Except.ok r)
    ∧ hl_read_loop_terminates (fun _ => []) (HLMsg.trades []) = true :=
  ⟨(c6_unroutable_frames [] false ⟨false, false, none, false⟩ (fun _ => [])
      HLMsg.allMids).2.1 rfl,
   (c6_unroutable_frames [] false ⟨false, false, none, false⟩ (fun _ => [])
      (HLMsg.trades [])).2.2 rfl⟩

/-- C7 counterexample: in the Hyperliquid registry a second `subscribe`
with the same topic key does not overwrite — `active_subscriptions`
appends, so the key then holds two entries (the first handler survives) —
and for `userEvents` a second subscribe raises `NotImplementedError`
instead of overwriting without error. -/
theorem c7_counterexample :
    hl_sub_twice "allMids" = [(1, 10), (2, 11)]
    ∧ hl_sub_twice "allMids" ≠ [(2, 11)]
    ∧ hl_subscribe (Function.update (fun _ => []) "userEvents" [(1, 10)]) "userEvents" 2 11
        = Except.error "Cannot subscribe to userEvents multiple times" :=
  ⟨by decide, by decide, rfl⟩

/-- C7 amended: in the Bybit registry (`_set_callback`, a dict) the second
of two subscribes with the same topic key silently overwrites the handler
and keys stay unique; in the Hyperliquid registry a repeated subscribe on
a non-`userEvents`/`orderUpdates` key raises no error but APPENDS a second
`(callback, subscription_id)` entry under the same key, so both handlers
remain registered. -/
theorem c7_resubscribe_same_key (d : String → Option Nat) (t : String) (c1 c2 : Nat)
    (subs : String → List ActiveSub) (i : String) (a1 s1 a2 s2 : Nat)
    (h1 : i ≠ "userEvents") (h2 : i ≠ "orderUpdates") :
    set_callback (set_callback d t c1) t c2 = set_callback d t c2
    ∧ ∃ f1 f2, hl_subscribe subs i a1 s1 = Except.ok f1
        ∧ hl_subscribe f1 i a2 s2 = Except.ok f2
        ∧ f2 i = subs i ++ [(a1, s1), (a2, s2)] := by
  have hb1 : (i == "userEvents") = false := by simp [h1]
  have hb2 : (i == "orderUpdates") = false := by simp [h2]
  constructor
  · unfold set_callback
    exact Function.update_idem c1 c2 d
  · refine ⟨Function.update subs i (subs i ++ [(a1, s1)]), ?_, ?_, ?_, ?_⟩
    · exact Function.update (Function.update subs i (subs i ++ [(a1, s1)])) i
        (subs i ++ [(a1, s1), (a2, s2)])
    · simp [hl_subscribe, hb1, hb2]
    · simp [hl_subscribe, hb1, hb2, Function.update_same]
    · simp [Function.update_same]

/-- Closed instance of `c7_resubscribe_same_key` at key `l2Book:btc`. -/
theorem c7_resubscribe_witness :
    set_callback (set_callback (fun _ => none) "tickers.BTCUSDT" 1) "tickers.BTCUSDT" 2
      = set_callback (fun _ => none) "tickers.BTCUSDT" 2
    ∧ ∃ f1 f2, hl_subscribe (fun _ => []) "l2Book:btc" 1 10 = Except.ok f1
        ∧ hl_subscribe f1 "l2Book:btc" 2 11 = Except.ok f2
        ∧ f2 "l2Book:btc" = ([] : List ActiveSub) ++ [(1, 10), (2, 11)] :=
  c7_resubscribe_same_key (fun _ => none) "tickers.BTCUSDT" 1 2 (fun _ => [])
    "l2Book:btc" 1 10 2 11 (by decide) (by decide)

/-- C8 counterexample: `BinanceWS.unsubscribe` of a topic absent from the
registry still sends an UNSUBSCRIBE control frame over the transport —
the claim that no control frame is sent for an unknown topic fails. -/
theorem c8_counterexample :
    (bn_unsubscribe [] (fun _ => none) 0 ["foo"]).2.2.2
        = [⟨"UNSUBSCRIBE", ["foo"], 1⟩]
    ∧ (bn_unsubscribe [] (fun _ => none) 0 ["foo"]).2.2.2 ≠ [] :=
  ⟨rfl, by decide⟩

/-- C8 amended: the Bybit `unsubscribe` of args matching no stored
subscription returns `False` synchronously with no state change and no
control frame; the Binance `unsubscribe`, by contrast, always sends an
UNSUBSCRIBE control frame over the transport, whether or not the topics
are in the registry (the registry discard itself is a no-op for absent
topics). -/
theorem c8_unsubscribe_unknown (conn : Bool) (subsB : List (String × List String))
    (cb : String → Option Nat) (args : List String)
    (subs : List String) (h : String → Option Nat) (idc : Nat) (params : List String)
    (hmiss : bybit_find_req subsB args = none) :
    bybit_unsubscribe conn subsB cb args = (subsB, cb, [], false)
    ∧ (bn_unsubscribe subs h idc params).2.2.2 = [⟨"UNSUBSCRIBE", params, idc + 1⟩] := by
  constructor
  · rw [bybit_unsubscribe]
    split
    · rfl
    · rw [hmiss]
  · rfl

/-- Closed instance of `c8_unsubscribe_unknown` on an empty Bybit registry. -/
theorem c8_unsubscribe_witness :
    bybit_unsubscribe true [] (fun _ => none) ["trade.BTCUSDT"]
      = ([], fun _ => none, [], false)
    ∧ (bn_unsubscribe [] (fun _ => none) 0 ["btcusdt@trade"]).2.2.2
      = [⟨"UNSUBSCRIBE", ["btcusdt@trade"], 0 + 1⟩] :=
  c8_unsubscribe_unknown true [] (fun _ => none) ["trade.BTCUSDT"]
    [] (fun _ => none) 0 ["btcusdt@trade"] rfl

/-- C9: Hyperliquid `unsubscribe` removes exactly the entries carrying the
given subscription id under the given identifier (entries under other
identifiers are untouched, by the pointwise `update`), sends the
unsubscribe control frame exactly when the remaining list for that
identifier is empty, and returns `True` iff an active subscription with
that id existed under the identifier. -/
theorem c9_hl_unsubscribe (subs : String → List ActiveSub) (ident : String)
    (sid : Nat) :
    (hl_unsubscribe subs ident sid).1
      = Function.update subs ident ((subs ident).filter (fun s => s.2 != sid))
    ∧ (hl_unsubscribe subs ident sid).2.1
      = ((subs ident).filter (fun s => s.2 != sid)).isEmpty
    ∧ ((hl_unsubscribe subs ident sid).2.2 = true ↔ ∃ s ∈ subs ident, s.2 = sid) := by
  refine ⟨rfl, rfl, ?_⟩
  rw [hl_unsubscribe]
  simp only [bne_iff_ne, ne_eq, decide_not]
  constructor
  · intro h
    by_contra hc
    push_neg at hc
    apply h
    symm
    rw [List.filter_length_eq_length]
    intro a ha
    simp [hc a ha]
  · intro hex h
    obtain ⟨s, hs, hsid⟩ := hex
    have hlen := List.filter_length_eq_length.mp h.symm s hs
    simp [hsid] at hlen

/-- C10: `BinanceUserDataWS.subscribe` and `.unsubscribe` raise
`NotImplementedError` unconditionally — before any mutation — so the
subscription set, handlers and connection state are left untouched for
every argument list. -/
theorem c10_userdata_stubs (subs params : List String) :
    bud_subscribe subs params
      = Except.error "UserData stream via listenKey does not support SUBSCRIBE."
    ∧ bud_unsubscribe subs params
      = Except.error "UserData stream via listenKey does not support UNSUBSCRIBE." :=
  ⟨rfl, rfl⟩

/-- Evaluation of the 12-send scenario: the first five sends go out at
time 0, the remaining seven all at time 1. -/
theorem bn_send_times_eval : bn_send_times = [0, 0, 0, 0, 0, 1, 1, 1, 1, 1, 1, 1] := by
  norm_num [bn_send_times, throttle_run, throttle_step, List.headI]

/-- C4 counterexample: in the 12-instantaneous-send scenario the trailing
1-second window ending at `t = 1.0` contains 7 sends (the 6th through
12th), exceeding the claimed bound of 5: the throttle sleeps only the 6th
send and lets the 7th through 12th through with no delay. -/
theorem c4_counterexample :
    sends_in_window bn_send_times 1 = 7 ∧ ¬(sends_in_window bn_send_times 1 ≤ 5) := by
  rw [sends_in_window, bn_send_times_eval]
  norm_num

/-- C4 amended: the 6th through 12th sends are all delayed until at least
1.0 second after the 1st send (the 1st through 5th go out immediately at
time 0), but the window invariant fails: only the 6th send is actually
slept; the 7th through 12th incur no further delay, so 7 sends fall in the
trailing 1-second window ending at `t = 1.0`. -/
theorem c4_throttle_delays :
    bn_send_times.take 5 = [0, 0, 0, 0, 0]
    ∧ bn_send_times.drop 5 = [1, 1, 1, 1, 1, 1, 1]
    ∧ (bn_send_times.drop 5).all (fun t => 1 ≤ t) = true
    ∧ sends_in_window bn_send_times 1 = 7 := by
  rw [sends_in_window, bn_send_times_eval]
  norm_num

/-- C3: after a successful reconnection with `N` registered topics,
`_resubscribe_all` emits subscribe control frames whose concatenation is
exactly the sorted enumeration of the registry — covering exactly those
`N` topics, in sorted order — with every frame carrying at most 200
topics, and with a pacing sleep between any two consecutive frames. -/
theorem c3_resubscribe_after_reconnect (s : Finset String) :
    (resubscribe_frames s).flatten = s.sort (· ≤ ·)
    ∧ ((resubscribe_frames s).flatten).toFinset = s
    ∧ ((resubscribe_frames s).flatten).length = s.card
    ∧ ((resubscribe_frames s).all (fun c => c.length ≤ 200)) = true
    ∧ List.Sorted (· ≤ ·) ((resubscribe_frames s).flatten)
    ∧ List.Chain' (fun a b => a.isSend = false ∨ b.isSend = false)
        (resubscribe_actions s) := by
  have hj : (resubscribe_frames s).flatten = s.sort (· ≤ ·) :=
    join_chunksOf 200 (s.sort (· ≤ ·))
  refine ⟨hj, ?_, ?_, chunksOf_length_le _, ?_, actionsOfFrames_paced _⟩
  · rw [hj]
    exact Finset.sort_toFinset _ s
  · rw [hj]
    exact Finset.length_sort _
  · rw [hj]
    exact Finset.sort_sorted _ s

end ExchangeWS

namespace ExchangeWS

/-- C1: for a topic whose stored state was established by a snapshot frame
with price levels `[(100,1.0),(101,2.0)]` (any sequence fields), applying a
delta frame with levels `[(100,0),(102,3.0)]` (any sequence fields) yields
the merged bid side `[(101,2.0),(102,3.0)]` — the zero-size entry is
removed, the unseen price `102` is inserted, the ask side stays empty —
and the merge does not raise. -/
theorem c1_snapshot_delta_merge (u0 seq0 u1 seq1 : Option ℤ) :
    TopicState.bside (process_delta_orderbook
        (some (process_delta_orderbook none
          (OBMessage.snapshot ⟨[(100,1),(101,2)], [], u0, seq0⟩)).1)
        (OBMessage.delta ⟨[(100,0),(102,3)], [], u1, seq1⟩)).1
      = [(101,2),(102,3)]
    ∧ TopicState.aside (process_delta_orderbook
        (some (process_delta_orderbook none
          (OBMessage.snapshot ⟨[(100,1),(101,2)], [], u0, seq0⟩)).1)
        (OBMessage.delta ⟨[(100,0),(102,3)], [], u1, seq1⟩)).1
      = []
    ∧ (process_delta_orderbook
        (some (process_delta_orderbook none
          (OBMessage.snapshot ⟨[(100,1),(101,2)], [], u0, seq0⟩)).1)
        (OBMessage.delta ⟨[(100,0),(102,3)], [], u1, seq1⟩)).2
      = false := by
  exact ⟨rfl, rfl, rfl⟩

/-- C2 counterexample: a delta frame arriving before any snapshot does not
leave the stored state untouched — `_initialise_local_data` installs an
empty list for the topic (absent ↦ present) — and a delta without the
`u`/`seq` sequence fields does invoke the registered handler. -/
theorem c2_counterexample :
    ((on_orderbook_message (fun _ => none) "orderbook.50.BTCUSDT"
        (OBMessage.delta ⟨[(100,0),(102,3)], [], some 5, none⟩)).1
      "orderbook.50.BTCUSDT" ≠ (fun _ => (none : Option TopicState)) "orderbook.50.BTCUSDT")
    ∧ orderbook_handler_invoked none
        (OBMessage.delta ⟨[(100,0),(102,3)], [], none, none⟩) true = true := by
  constructor
  · simp [on_orderbook_message]
  · rfl

/-- C2 amended: a delta frame for a topic with no prior snapshot is never
merged into the absent base — the stored state becomes (only) the bare
empty list, holding no price levels — but the topic entry is created, and:
when the delta carries a `u` or `seq` sequence field the merge raises a
`TypeError` (caught in `_on_message`) and no handler runs, while a delta
without sequence fields leaves the empty state and the registered handler
is invoked with it. -/
theorem c2_delta_before_snapshot (d : DeltaData) (reg : Bool) :
    process_delta_orderbook none (OBMessage.delta d)
      = (TopicState.initList, d.u.isSome || d.seq.isSome)
    ∧ orderbook_handler_invoked none (OBMessage.delta d) reg
      = (!(d.u.isSome || d.seq.isSome) && reg)
    ∧ TopicState.bside (process_delta_orderbook none (OBMessage.delta d)).1 = [] := by
  refine ⟨?_, ?_, ?_⟩
  · cases hu : d.u <;> cases hs : d.seq <;> simp [process_delta_orderbook, hu, hs]
  · cases hu : d.u <;> cases hs : d.seq <;>
      simp [orderbook_handler_invoked, process_delta_orderbook, hu, hs]
  · cases hu : d.u <;> cases hs : d.seq <;>
      simp [process_delta_orderbook, hu, hs, TopicState.bside]

end ExchangeWS
